import Mathlib

/-!
# Verification of the realtime caption stream client

Shallow embedding of `src/hooks/use-caption-stream.ts` (and, where noted, the
earlier revision of the same hook embedded in `src/unnamed/part_000`) from the
Universal-Translator-Glasses repository, together with proofs about the event
normalizer, the state aggregator, the reconnect backoff machine and the
session controller.

Modelling conventions:
* JavaScript runtime values reaching the normalizer are modelled by `JSValue`.
  Finite numbers are rationals; the constructor `JSValue.nan` stands for any
  non-finite number (`NaN`, `±Infinity`), which `Number.isFinite` rejects.
  Objects are association lists (first binding wins, as after `JSON.parse`
  duplicate keys cannot survive).
* Property access `v.k` is `jsGet v k`, yielding `JSValue.undefined` when absent.
* `crypto.randomUUID()` is modelled by a per-state counter `nextId` supplying
  process-unique ids.
* `new Date().toISOString()` (`nowIso`) is modelled by a `now : String`
  parameter threaded to the functions that call it.
-/

namespace CaptionStream

/-- Model of a decoded JavaScript value as seen by the normalizer. -/
inductive JSValue where
  | undefined : JSValue
  | null : JSValue
  | bool (b : Bool) : JSValue
  | num (q : ℚ) : JSValue
  | nan : JSValue
  | str (s : String) : JSValue
  | arr (xs : List JSValue) : JSValue
  | obj (fields : List (String × JSValue)) : JSValue

/-- Property access `v[key]`: object field lookup, numeric indexing on arrays,
`undefined` otherwise (the source only dereferences values guarded by
`isObject`, so the host's throw-on-null case is never reached). -/
def jsGet (v : JSValue) (key : String) : JSValue :=
  match v with
  | .obj fields =>
    match fields.lookup key with
    | some w => w
    | none => .undefined
  | .arr xs =>
    match key.toNat? with
    | some i => (xs.get? i).getD .undefined
    | none => .undefined
  | _ => .undefined

/-- `isObject` from `use-caption-stream.ts` lines 55-56:
`typeof value === "object" && value !== null` (arrays are objects in JS). -/
def isObject (value : JSValue) : Bool :=
  match value with
  | .obj _ => true
  | .arr _ => true
  | _ => false

/-- Value of a list of decimal digit characters. -/
def digitsVal (ds : List Char) : Nat :=
  ds.foldl (fun a c => a * 10 + (c.toNat - 48)) 0

/-- Splits the longest leading run of decimal digits off a character list. -/
def splitDigits : List Char → List Char × List Char
  | [] => ([], [])
  | c :: cs =>
    if c.isDigit then
      let (d, r) := splitDigits cs
      (c :: d, r)
    else
      ([], c :: cs)

/-- Value of one digit in radix ≤ 36, `none` if `c` is not such a digit. -/
def radixDigit (radix : Nat) (c : Char) : Option Nat :=
  let n :=
    if c.isDigit then some (c.toNat - 48)
    else if 97 ≤ c.toNat ∧ c.toNat ≤ 122 then some (c.toNat - 87)
    else if 65 ≤ c.toNat ∧ c.toNat ≤ 90 then some (c.toNat - 55)
    else none
  match n with
  | some m => if m < radix then some m else none
  | none => none

/-- Value of a non-empty digit string in the given radix, `none` on any
out-of-range character or on an empty string. -/
def radixVal (radix : Nat) : List Char → Option Nat
  | [] => none
  | [c] => radixDigit radix c
  | c :: cs =>
    match radixDigit radix c, radixVal radix cs with
    | some d, some rest => some (d * radix ^ cs.length + rest)
    | _, _ => none

/-- Exponent suffix of a JS decimal literal: optional sign, then digits. -/
def parseExponent (m : ℚ) (cs : List Char) : Option ℚ :=
  let (pos, body) :=
    match cs with
    | '-' :: r => (false, r)
    | '+' :: r => (true, r)
    | r => (true, r)
  let (ds, rest) := splitDigits body
  if ds = [] ∨ rest ≠ [] then none
  else some (if pos then m * 10 ^ digitsVal ds else m / 10 ^ digitsVal ds)

/-- Decimal part of a JS numeric literal: digits, optional fraction, optional
exponent; `none` models `NaN`. -/
def parseDecimal (cs : List Char) : Option ℚ :=
  let (intPart, rest1) := splitDigits cs
  let (fracPart, rest2) :=
    match rest1 with
    | '.' :: cs1 => splitDigits cs1
    | _ => ([], rest1)
  if intPart = [] ∧ fracPart = [] then none
  else
    let mantissa : ℚ :=
      (digitsVal intPart : ℚ) + (digitsVal fracPart : ℚ) / ((10 : ℚ) ^ fracPart.length)
    match rest2 with
    | [] => some mantissa
    | 'e' :: cs2 => parseExponent mantissa cs2
    | 'E' :: cs2 => parseExponent mantissa cs2
    | _ => none

/-- Models the JavaScript `Number(string)` coercion used by `toNumber`,
restricted to the outcomes `toNumber` distinguishes: `some q` when the result
is the finite number `q`, `none` when it is not finite (`NaN` or `±Infinity`).
Handles trimmed whitespace, the empty string (0), signed decimal literals with
fraction and exponent, radix-prefixed integer literals, and `Infinity`. -/
def jsParseNumber (s : String) : Option ℚ :=
  let t := s.trim
  if t = "" then some 0
  else
    match t.toList with
    | '0' :: 'x' :: rest => (radixVal 16 rest).map (fun n => (n : ℚ))
    | '0' :: 'X' :: rest => (radixVal 16 rest).map (fun n => (n : ℚ))
    | '0' :: 'o' :: rest => (radixVal 8 rest).map (fun n => (n : ℚ))
    | '0' :: 'O' :: rest => (radixVal 8 rest).map (fun n => (n : ℚ))
    | '0' :: 'b' :: rest => (radixVal 2 rest).map (fun n => (n : ℚ))
    | '0' :: 'B' :: rest => (radixVal 2 rest).map (fun n => (n : ℚ))
    | cs =>
      let (sign, body) :=
        match cs with
        | '-' :: r => ((-1 : ℚ), r)
        | '+' :: r => ((1 : ℚ), r)
        | r => ((1 : ℚ), r)
      if body = ("Infinity").toList then none
      else (parseDecimal body).map (fun q => sign * q)

/-- `toNumber` from `use-caption-stream.ts` lines 58-69: finite numbers pass
through, strings go through `Number(·)` and are kept when finite, everything
else falls back. -/
def toNumber (value : JSValue) (fallback : ℚ) : ℚ :=
  match value with
  | .num q => q
  | .nan => fallback
  | .str s =>
    match jsParseNumber s with
    | some parsed => parsed
    | none => fallback
  | _ => fallback

/-- `toString` from `use-caption-stream.ts` lines 71-72. -/
def toString (value : JSValue) (fallback : String) : String :=
  match value with
  | .str s => s
  | _ => fallback

/-- `toBool` from `use-caption-stream.ts` lines 74-75. -/
def toBool (value : JSValue) (fallback : Bool) : Bool :=
  match value with
  | .bool b => b
  | _ => fallback

/-- JavaScript `Math.round` on a (finite) number: halfway cases round toward
positive infinity. -/
def jsRound (q : ℚ) : ℤ := ⌊q + 1 / 2⌋

/-- `ConfidenceLevel` from `src` types: derived quality bucket of a caption. -/
inductive ConfidenceLevel where
  | low : ConfidenceLevel
  | medium : ConfidenceLevel
  | high : ConfidenceLevel
deriving DecidableEq, Repr

/-- `AlertLevel` from `src` types. -/
inductive AlertLevel where
  | info : AlertLevel
  | warning : AlertLevel
  | error : AlertLevel
deriving DecidableEq, Repr

/-- `CaptionPayload` from `src` types: `{text, timestamp, confidence}`. -/
structure CaptionPayload where
  text : String
  timestamp : String
  confidence : ℚ
deriving DecidableEq, Repr

/-- `MetricsPayload` from `src` types. -/
structure MetricsPayload where
  fps : ℚ
  latency_ms : ℚ
  hands_detected : Bool
  queue_depth : ℚ
deriving DecidableEq, Repr

/-- `AlertPayload` from `src` types. -/
structure AlertPayload where
  level : AlertLevel
  message : String
  timestamp : String
deriving DecidableEq, Repr

/-- `StreamEvent` from `src` types: the canonical tagged event union. -/
inductive StreamEvent where
  | captionPartialEvent (payload : CaptionPayload) : StreamEvent
  | captionFinalEvent (payload : CaptionPayload) : StreamEvent
  | systemMetrics (payload : MetricsPayload) : StreamEvent
  | systemAlert (payload : AlertPayload) : StreamEvent
deriving DecidableEq, Repr

/-- `CaptionEntry` from `src` types: a caption payload plus a process-unique
id (modelled as a natural number) and the derived confidence level. -/
structure CaptionEntry where
  text : String
  timestamp : String
  confidence : ℚ
  id : ℕ
  confidenceLevel : ConfidenceLevel
deriving DecidableEq, Repr

/-- `AlertEntry` from `src` types: an alert payload plus a unique id. -/
structure AlertEntry where
  level : AlertLevel
  message : String
  timestamp : String
  id : ℕ
deriving DecidableEq, Repr

/-- `confidenceLevelFor` from `use-caption-stream.ts` lines 26-36. -/
def confidenceLevelFor (confidence : ℚ) : ConfidenceLevel :=
  if confidence < 0.45 then .low
  else if confidence < 0.75 then .medium
  else .high

/-- `captionFromPayload` from `use-caption-stream.ts` lines 38-42; the
`crypto.randomUUID()` call is modelled by the explicit `id` argument. -/
def captionFromPayload (id : ℕ) (payload : CaptionPayload) : CaptionEntry :=
  { text := payload.text
    timestamp := payload.timestamp
    confidence := payload.confidence
    id := id
    confidenceLevel := confidenceLevelFor payload.confidence }

/-- `alertFromPayload` from `use-caption-stream.ts` lines 44-47. -/
def alertFromPayload (id : ℕ) (payload : AlertPayload) : AlertEntry :=
  { level := payload.level
    message := payload.message
    timestamp := payload.timestamp
    id := id }

/-- The empty object `{}` substituted for a missing pipeline stage. -/
def emptyObj : JSValue := .obj []

/-- `normalizeMetricsEvent` from `use-caption-stream.ts` lines 77-106 (the
hook actually imported by the application). -/
def normalizeMetricsEvent (payload : JSValue) : StreamEvent :=
  let ingest := if isObject (jsGet payload ("ingest")) then jsGet payload ("ingest") else emptyObj
  let landmark := if isObject (jsGet payload ("landmark")) then jsGet payload ("landmark") else emptyObj
  let windowing := if isObject (jsGet payload ("windowing")) then jsGet payload ("windowing") else emptyObj
  let translation := if isObject (jsGet payload ("translation")) then jsGet payload ("translation") else emptyObj
  let fps := max 0 (toNumber (jsGet ingest ("effective_fps")) 0)
  let latencyMs :=
    max 0 (toNumber (jsGet translation ("last_processing_ms"))
      (toNumber (jsGet landmark ("last_processing_ms")) 0))
  let queueDepth :=
    max 0 (toNumber (jsGet landmark ("queue_size")) 0 +
      toNumber (jsGet windowing ("queue_size")) 0 +
      toNumber (jsGet translation ("queue_size")) 0)
  let handsDetected :=
    toBool (jsGet landmark ("healthy")) false &&
      decide (0 < toNumber (jsGet landmark ("frames_with_hands")) 0)
  .systemMetrics
    { fps := (jsRound fps : ℚ)
      latency_ms := (jsRound latencyMs : ℚ)
      hands_detected := handsDetected
      queue_depth := (jsRound queueDepth : ℚ) }

/-- `normalizeMetricsEvent` from the earlier revision of the hook embedded in
`src/unnamed/part_000` (lines 277-308 there): identical except that
`hands_detected` gives precedence to the direct `last_frame_had_hands` flag,
with the healthy-and-positive-count derivation only as fallback. -/
def normalizeMetricsEventAlt (payload : JSValue) : StreamEvent :=
  let ingest := if isObject (jsGet payload ("ingest")) then jsGet payload ("ingest") else emptyObj
  let landmark := if isObject (jsGet payload ("landmark")) then jsGet payload ("landmark") else emptyObj
  let windowing := if isObject (jsGet payload ("windowing")) then jsGet payload ("windowing") else emptyObj
  let translation := if isObject (jsGet payload ("translation")) then jsGet payload ("translation") else emptyObj
  let fps := max 0 (toNumber (jsGet ingest ("effective_fps")) 0)
  let latencyMs :=
    max 0 (toNumber (jsGet translation ("last_processing_ms"))
      (toNumber (jsGet landmark ("last_processing_ms")) 0))
  let queueDepth :=
    max 0 (toNumber (jsGet landmark ("queue_size")) 0 +
      toNumber (jsGet windowing ("queue_size")) 0 +
      toNumber (jsGet translation ("queue_size")) 0)
  let handsDetected :=
    toBool (jsGet landmark ("last_frame_had_hands"))
      (toBool (jsGet landmark ("healthy")) false &&
        decide (0 < toNumber (jsGet landmark ("frames_with_hands")) 0))
  .systemMetrics
    { fps := (jsRound fps : ℚ)
      latency_ms := (jsRound latencyMs : ℚ)
      hands_detected := handsDetected
      queue_depth := (jsRound queueDepth : ℚ) }

/-- Models the JavaScript `toLowerCase()` used on the severity field (ASCII
case mapping; the alert vocabulary compared against is ASCII). -/
def jsToLower (s : String) : String :=
  String.mk (s.data.map Char.toLower)

/-- `normalizeAlertEvent` from `use-caption-stream.ts` lines 108-126. -/
def normalizeAlertEvent (envelopeTimestamp : String) (payload : JSValue) : StreamEvent :=
  let severity := jsToLower (toString (jsGet payload ("severity")) ("info"))
  let component := toString (jsGet payload ("component")) ("system")
  let reason := toString (jsGet payload ("reason")) ("unknown alert")
  let level : AlertLevel :=
    if severity = "error" then .error
    else if severity = "warning" then .warning
    else .info
  .systemAlert
    { level := level
      message := component ++ (": ") ++ reason
      timestamp := toString (jsGet payload ("timestamp")) envelopeTimestamp }

/-- The two caption event kinds accepted by `normalizeCaptionEvent`
(`"caption.partial" | "caption.final"` in the source). -/
inductive CaptionKind where
  | partialKind : CaptionKind
  | finalKind : CaptionKind
deriving DecidableEq, Repr

/-- `normalizeCaptionEvent` from `use-caption-stream.ts` lines 128-141. -/
def normalizeCaptionEvent (eventType : CaptionKind) (envelopeTimestamp : String)
    (payload : JSValue) : StreamEvent :=
  let pay : CaptionPayload :=
    { text := toString (jsGet payload ("text")) ("")
      timestamp := toString (jsGet payload ("created_at")) envelopeTimestamp
      confidence := max 0 (min 1 (toNumber (jsGet payload ("confidence")) 0)) }
  match eventType with
  | .partialKind => .captionPartialEvent pay
  | .finalKind => .captionFinalEvent pay

/-- Shape-B (envelope) branch of `normalizeIncomingEvent`, lines 163-179:
`{event, timestamp?, payload}`. `now` models the `nowIso()` fallback. -/
def normalizeEnvelopeEvent (now : String) (raw : JSValue) : Option StreamEvent :=
  match jsGet raw ("event"), jsGet raw ("payload") with
  | .str eventName, payload =>
    if isObject payload then
      let envelopeTimestamp := toString (jsGet raw ("timestamp")) now
      if eventName = "caption.partial" then
        some (normalizeCaptionEvent .partialKind envelopeTimestamp payload)
      else if eventName = "caption.final" then
        some (normalizeCaptionEvent .finalKind envelopeTimestamp payload)
      else if eventName = "system.metrics" then
        some (normalizeMetricsEvent payload)
      else if eventName = "system.alert" then
        some (normalizeAlertEvent envelopeTimestamp payload)
      else none
    else none
  | _, _ => none

/-- `normalizeIncomingEvent` from `use-caption-stream.ts` lines 143-180.
`now` models the `nowIso()` calls (Shape-A caption/alert timestamps and the
Shape-B envelope-timestamp fallback). -/
def normalizeIncomingEvent (now : String) (raw : JSValue) : Option StreamEvent :=
  if isObject raw = false then none
  else
    match jsGet raw ("type"), jsGet raw ("payload") with
    | .str eventType, payload =>
      if isObject payload then
        if eventType = "caption.partial" then
          some (normalizeCaptionEvent .partialKind now payload)
        else if eventType = "caption.final" then
          some (normalizeCaptionEvent .finalKind now payload)
        else if eventType = "system.metrics" then
          some (normalizeMetricsEvent payload)
        else if eventType = "system.alert" then
          some (normalizeAlertEvent now payload)
        else none
      else normalizeEnvelopeEvent now raw
    | _, _ => normalizeEnvelopeEvent now raw

/-- `MAX_TRANSCRIPT_ENTRIES` from `use-caption-stream.ts` line 14. -/
def MAX_TRANSCRIPT_ENTRIES : ℕ := 200

/-- `MAX_ALERT_ENTRIES` from `use-caption-stream.ts` line 15. -/
def MAX_ALERT_ENTRIES : ℕ := 20

/-- `connectionState` values of the hook. -/
inductive ConnectionState where
  | connected : ConnectionState
  | reconnecting : ConnectionState
  | disconnected : ConnectionState
deriving DecidableEq, Repr

/-- The aggregate state owned by `useCaptionStream` (the `useState` slots of
lines 203-218), plus the `nextId` counter modelling `crypto.randomUUID()`. -/
structure AggState where
  sessionActive : Bool
  connectionState : ConnectionState
  currentCaption : Option CaptionEntry
  partialCaption : Option CaptionEntry
  transcript : List CaptionEntry
  alerts : List AlertEntry
  isProcessing : Bool
  metrics : MetricsPayload
  nextId : ℕ
deriving DecidableEq, Repr

/-- The initial state of the hook (`useState` initialisers, lines 203-218). -/
def initialState : AggState :=
  { sessionActive := false
    connectionState := .disconnected
    currentCaption := none
    partialCaption := none
    transcript := []
    alerts := []
    isProcessing := false
    metrics := { fps := 0, latency_ms := 0, hands_detected := false, queue_depth := 0 }
    nextId := 0 }

/-- `addAlert` from `use-caption-stream.ts` lines 227-229:
`[alertFromPayload(payload), ...prev].slice(0, MAX_ALERT_ENTRIES)`. -/
def addAlert (payload : AlertPayload) (s : AggState) : AggState :=
  { s with
    alerts := (alertFromPayload s.nextId payload :: s.alerts).take MAX_ALERT_ENTRIES
    nextId := s.nextId + 1 }

/-- `handleEvent` from `use-caption-stream.ts` lines 231-257. -/
def handleEvent (event : StreamEvent) (s : AggState) : AggState :=
  match event with
  | .captionPartialEvent payload =>
    let caption := captionFromPayload s.nextId payload
    { s with
      partialCaption := some caption
      isProcessing := true
      nextId := s.nextId + 1 }
  | .captionFinalEvent payload =>
    let caption := captionFromPayload s.nextId payload
    { s with
      currentCaption := some caption
      partialCaption := none
      transcript := (caption :: s.transcript).take MAX_TRANSCRIPT_ENTRIES
      isProcessing := false
      nextId := s.nextId + 1 }
  | .systemMetrics payload => { s with metrics := payload }
  | .systemAlert payload => addAlert payload s

/-- `startSession` from `use-caption-stream.ts` lines 425-427 (the transport
or simulator effects it triggers are modelled separately by `onOpen`,
`onMessage`, `wsOnClose`). -/
def startSession (s : AggState) : AggState :=
  { s with sessionActive := true }

/-- `pauseSession` (lines 429-431) composed with the session effect's
inactive branch (lines 280-288), which React runs synchronously after the
`sessionActive` update: disconnect, `connectionState = "disconnected"`,
`isProcessing = false`, `partialCaption = null`. -/
def pauseSession (s : AggState) : AggState :=
  { s with
    sessionActive := false
    connectionState := .disconnected
    isProcessing := false
    partialCaption := none }

/-- `clearTranscript` from `use-caption-stream.ts` lines 433-438. -/
def clearTranscript (s : AggState) : AggState :=
  { s with
    transcript := []
    currentCaption := none
    partialCaption := none
    isProcessing := false }

/-- One externally triggered step of the aggregate: a handled canonical event
or one of the session-controller operations. -/
inductive Op where
  | deliver (event : StreamEvent) : Op
  | startOp : Op
  | pauseOp : Op
  | clearOp : Op

/-- Effect of one operation on the aggregate state. -/
def applyOp (o : Op) (s : AggState) : AggState :=
  match o with
  | .deliver event => handleEvent event s
  | .startOp => startSession s
  | .pauseOp => pauseSession s
  | .clearOp => clearTranscript s

/-- Effect of a sequence of operations, applied left to right. -/
def applyOps (ops : List Op) (s : AggState) : AggState :=
  ops.foldl (fun acc o => applyOp o acc) s

/-- An inbound transport message as seen by `ws.onmessage`:
either JSON-decodable to a value, or undecodable (`JSON.parse` throws). -/
inductive WireMsg where
  | undecodable : WireMsg
  | decoded (value : JSValue) : WireMsg

/-- The alert payload raised by `ws.onmessage` when `JSON.parse` throws
(lines 387-393). -/
def malformedAlertPayload (now : String) : AlertPayload :=
  { level := .warning, message := "Received malformed stream payload.", timestamp := now }

/-- `ws.onmessage` from `use-caption-stream.ts` lines 379-394, acting on the
aggregate state: undecodable data raises one warning alert; decodable data is
normalized, a `null` normalization being silently discarded. -/
def onMessage (now : String) (msg : WireMsg) (s : AggState) : AggState :=
  match msg with
  | .undecodable => addAlert (malformedAlertPayload now) s
  | .decoded value =>
    match normalizeIncomingEvent now value with
    | none => s
    | some event => handleEvent event s

/-- The reconnect-attempt counter `reconnectAttemptRef` (line 223). -/
structure ConnMachine where
  reconnectAttempt : ℕ
deriving DecidableEq, Repr

/-- `ws.onopen` from `use-caption-stream.ts` lines 365-377, restricted to the
attempt counter: `reconnectAttemptRef.current = 0`. -/
def wsOnOpen (_ : ConnMachine) : ConnMachine :=
  { reconnectAttempt := 0 }

/-- `ws.onclose` from `use-caption-stream.ts` lines 404-414, while the session
is active and not cancelled: increments the attempt counter and returns the
scheduled backoff `Math.min(10_000, attempt * 2_000)` in milliseconds. -/
def wsOnClose (m : ConnMachine) : ConnMachine × ℕ :=
  let attempt := m.reconnectAttempt + 1
  ({ reconnectAttempt := attempt }, min 10000 (attempt * 2000))

/-- The machine after `n` consecutive close events. -/
def closesAfter (m : ConnMachine) : ℕ → ConnMachine
  | 0 => m
  | n + 1 => (wsOnClose (closesAfter m n)).1

/-- The delay scheduled by the `n`-th consecutive close event (`n ≥ 1`),
starting from machine `m`. -/
def nthCloseDelay (m : ConnMachine) (n : ℕ) : ℕ :=
  (wsOnClose (closesAfter m (n - 1))).2

/-- Projection: payload of a caption event (partial or final). -/
def captionPayloadOf : StreamEvent → Option CaptionPayload
  | .captionPartialEvent p => some p
  | .captionFinalEvent p => some p
  | _ => none

/-- Projection: `hands_detected` of a metrics event. -/
def handsOf : StreamEvent → Option Bool
  | .systemMetrics p => some p.hands_detected
  | _ => none

/-- Projection: `level` of an alert event. -/
def levelOf : StreamEvent → Option AlertLevel
  | .systemAlert p => some p.level
  | _ => none

/-- The landmark-stage object extracted by both metrics normalizers:
`isObject(payload.landmark) ? payload.landmark : {}`. -/
def landmarkStage (payload : JSValue) : JSValue :=
  if isObject (jsGet payload ("landmark")) then jsGet payload ("landmark") else emptyObj

/-- A metrics payload whose landmark stage carries only the direct
`last_frame_had_hands: true` flag (no health or frame-count data). -/
def handsFlagOnlyPayload : JSValue :=
  .obj [(("landmark"), .obj [(("last_frame_had_hands"), .bool true)])]

/-- A metrics payload with a healthy landmark stage, a positive
`frames_with_hands` count and a `last_frame_had_hands: false` flag. -/
def handsMixedPayload : JSValue :=
  .obj [(("landmark"),
    .obj [(("healthy"), .bool true), (("frames_with_hands"), .num 3),
          (("last_frame_had_hands"), .bool false)])]

/-- `handsMixedPayload` with the direct flag absent. -/
def handsNoFlagPayload : JSValue :=
  .obj [(("landmark"),
    .obj [(("healthy"), .bool true), (("frames_with_hands"), .num 3)])]

/-- An alert payload whose severity is the upper-case string `"ERROR"`. -/
def severityCasePayload : JSValue :=
  .obj [(("severity"), .str ("ERROR"))]

/-- The Shape-B alert envelope from the spec's fourth testable property. -/
def alertEnvelopeExample : JSValue :=
  .obj [(("event"), .str ("system.alert")), (("timestamp"), .str ("T0")),
        (("payload"),
          .obj [(("severity"), .str ("ERROR")), (("component"), .str ("gemini")),
                (("reason"), .str ("timeout"))])]

/-- A Shape-A caption payload that carries a `created_at` creation time AND a
competing `timestamp` field. -/
def shapeAPayload : JSValue :=
  .obj [(("created_at"), .str ("CREATED")), (("timestamp"), .str ("PAYLOAD-TS")),
        (("text"), .str ("hello")), (("confidence"), .num 0.9)]

/-- A Shape-A caption envelope around `shapeAPayload` that also carries an
envelope-level `timestamp`. -/
def shapeAExample : JSValue :=
  .obj [(("type"), .str ("caption.final")), (("timestamp"), .str ("ENV")),
        (("payload"), shapeAPayload)]

/-- A state with an active session, a non-empty transcript, a pending partial
caption and a live connection, used to exercise `pauseSession`. -/
def pausedWitnessState : AggState :=
  { sessionActive := true
    connectionState := .connected
    currentCaption := some (captionFromPayload 0 { text := "done", timestamp := "T1", confidence := 0.8 })
    partialCaption := some (captionFromPayload 2 { text := "pending", timestamp := "T3", confidence := 0.5 })
    transcript := [captionFromPayload 0 { text := "done", timestamp := "T1", confidence := 0.8 }]
    alerts := [alertFromPayload 1 { level := .info, message := "Connected to caption stream.", timestamp := "T2" }]
    isProcessing := true
    metrics := { fps := 12, latency_ms := 1500, hands_detected := true, queue_depth := 1 }
    nextId := 3 }

/-! ## Helper lemmas -/

theorem head_of_take_transcript (c : CaptionEntry) (l : List CaptionEntry) :
    ((c :: l).take MAX_TRANSCRIPT_ENTRIES).head? = some c := by
  rw [show MAX_TRANSCRIPT_ENTRIES = 199 + 1 from rfl, List.take_succ_cons]
  rfl

theorem head_of_take_alerts (c : AlertEntry) (l : List AlertEntry) :
    ((c :: l).take MAX_ALERT_ENTRIES).head? = some c := by
  rw [show MAX_ALERT_ENTRIES = 19 + 1 from rfl, List.take_succ_cons]
  rfl

theorem applyOp_bounded (o : Op) (s : AggState)
    (h1 : s.transcript.length ≤ 200) (h2 : s.alerts.length ≤ 20) :
    (applyOp o s).transcript.length ≤ 200 ∧ (applyOp o s).alerts.length ≤ 20 := by
  cases o with
  | deliver event =>
    cases event <;>
      simp [applyOp, handleEvent, addAlert, MAX_TRANSCRIPT_ENTRIES, MAX_ALERT_ENTRIES,
        List.length_take] <;> omega
  | startOp => exact ⟨h1, h2⟩
  | pauseOp => exact ⟨h1, h2⟩
  | clearOp => exact ⟨by simp [applyOp, clearTranscript], h2⟩

theorem applyOps_bounded (ops : List Op) (s : AggState)
    (h1 : s.transcript.length ≤ 200) (h2 : s.alerts.length ≤ 20) :
    (applyOps ops s).transcript.length ≤ 200 ∧ (applyOps ops s).alerts.length ≤ 20 := by
  induction ops generalizing s with
  | nil => exact ⟨h1, h2⟩
  | cons o ops ih =>
    have hstep := applyOp_bounded o s h1 h2
    exact ih (applyOp o s) hstep.1 hstep.2

theorem closesAfter_attempt (m : ConnMachine) (k : ℕ) :
    (closesAfter (wsOnOpen m) k).reconnectAttempt = k := by
  induction k with
  | zero => rfl
  | succ n ih => simp [closesAfter, wsOnClose, ih]

theorem handsOf_normalizeMetricsEvent (payload : JSValue) :
    handsOf (normalizeMetricsEvent payload) =
      some (toBool (jsGet (landmarkStage payload) ("healthy")) false &&
        decide (0 < toNumber (jsGet (landmarkStage payload) ("frames_with_hands")) 0)) := rfl

theorem handsOf_normalizeMetricsEventAlt (payload : JSValue) :
    handsOf (normalizeMetricsEventAlt payload) =
      some (toBool (jsGet (landmarkStage payload) ("last_frame_had_hands"))
        (toBool (jsGet (landmarkStage payload) ("healthy")) false &&
          decide (0 < toNumber (jsGet (landmarkStage payload) ("frames_with_hands")) 0))) := rfl

theorem levelOf_normalizeAlertEvent (ts : String) (payload : JSValue) :
    levelOf (normalizeAlertEvent ts payload) =
      some (if jsToLower (toString (jsGet payload ("severity")) ("info")) = "error" then .error
        else if jsToLower (toString (jsGet payload ("severity")) ("info")) = "warning" then .warning
        else .info) := rfl

theorem normalizeIncomingEvent_shapeA (now : String) (raw payload : JSValue) (t : String)
    (hobj : isObject raw = true) (htype : jsGet raw ("type") = JSValue.str t)
    (hpay : jsGet raw ("payload") = payload) (hpobj : isObject payload = true) :
    normalizeIncomingEvent now raw =
      (if t = "caption.partial" then some (normalizeCaptionEvent .partialKind now payload)
       else if t = "caption.final" then some (normalizeCaptionEvent .finalKind now payload)
       else if t = "system.metrics" then some (normalizeMetricsEvent payload)
       else if t = "system.alert" then some (normalizeAlertEvent now payload)
       else none) := by
  unfold normalizeIncomingEvent
  rw [hobj, htype, hpay]
  simp [hpobj]

/-! ## Claims -/

/-- C1: every caption event (partial or final) built by the normalizer stores
the clamped confidence `max 0 (min 1 c)` of the parsed input confidence `c`,
and the `confidenceLevel` of every `CaptionEntry` built from a payload is
`low` iff confidence < 0.45, `medium` iff 0.45 ≤ confidence < 0.75, and
`high` iff confidence ≥ 0.75. -/
theorem confidence_clamped_and_levels :
    (∀ (k : CaptionKind) (ts : String) (payload : JSValue),
      Option.map (fun p => p.confidence) (captionPayloadOf (normalizeCaptionEvent k ts payload)) =
        some (max 0 (min 1 (toNumber (jsGet payload ("confidence")) 0)))) ∧
    (∀ c : ℚ,
      (confidenceLevelFor c = .low ↔ c < 0.45) ∧
      (confidenceLevelFor c = .medium ↔ 0.45 ≤ c ∧ c < 0.75) ∧
      (confidenceLevelFor c = .high ↔ 0.75 ≤ c)) ∧
    (∀ (id : ℕ) (p : CaptionPayload),
      (captionFromPayload id p).confidenceLevel = confidenceLevelFor p.confidence ∧
      (captionFromPayload id p).confidence = p.confidence) := by
  refine ⟨fun k ts payload => ?_, fun c => ?_, fun id p => ⟨rfl, rfl⟩⟩
  · cases k <;> rfl
  · unfold confidenceLevelFor
    split_ifs with h1 h2 <;> simp_all [not_lt] <;> linarith

/-- C2: after any sequence of handled events and session operations from the
initial state, the transcript never exceeds 200 entries and the alerts list
never exceeds 20; on delivery the newest entry is prepended at the head and
overflow only drops entries from the tail (the new list is a prefix of the
new entry consed onto the old list). -/
theorem transcript_and_alert_bounds :
    (∀ ops : List Op,
      (applyOps ops initialState).transcript.length ≤ 200 ∧
      (applyOps ops initialState).alerts.length ≤ 20) ∧
    (∀ (p : CaptionPayload) (s : AggState),
      (handleEvent (.captionFinalEvent p) s).transcript.head? =
        some (captionFromPayload s.nextId p) ∧
      List.IsPrefix (handleEvent (.captionFinalEvent p) s).transcript
        (captionFromPayload s.nextId p :: s.transcript)) ∧
    (∀ (a : AlertPayload) (s : AggState),
      (handleEvent (.systemAlert a) s).alerts.head? = some (alertFromPayload s.nextId a) ∧
      List.IsPrefix (handleEvent (.systemAlert a) s).alerts
        (alertFromPayload s.nextId a :: s.alerts)) := by
  refine ⟨fun ops => applyOps_bounded ops initialState (by simp [initialState]) (by simp [initialState]),
    fun p s => ⟨head_of_take_transcript _ _, ?_⟩, fun a s => ⟨?_, ?_⟩⟩
  · exact List.take_prefix _ _
  · exact head_of_take_alerts _ _
  · exact List.take_prefix _ _

/-- C3: from any aggregate state, handling a `caption.partial` event and then
a `caption.final` event leaves `partialCaption = null`, `currentCaption.text`
equal to the final event's text, the transcript head equal to that same final
entry, and `isProcessing = false`. -/
theorem caption_partial_then_final (p q : CaptionPayload) (s : AggState) :
    (handleEvent (.captionFinalEvent q) (handleEvent (.captionPartialEvent p) s)).partialCaption
        = none ∧
    Option.map (fun c => c.text)
        (handleEvent (.captionFinalEvent q) (handleEvent (.captionPartialEvent p) s)).currentCaption
      = some q.text ∧
    (handleEvent (.captionFinalEvent q) (handleEvent (.captionPartialEvent p) s)).transcript.head?
      = (handleEvent (.captionFinalEvent q) (handleEvent (.captionPartialEvent p) s)).currentCaption ∧
    (handleEvent (.captionFinalEvent q) (handleEvent (.captionPartialEvent p) s)).isProcessing
      = false := by
  refine ⟨rfl, rfl, ?_, rfl⟩
  simp only [handleEvent]
  exact head_of_take_transcript _ _

/-- C4: after a successful open the attempt counter is 0, and the delay
scheduled by the n-th consecutive transport close without an intervening
successful connect is `min 10000 (n * 2000)` ms, giving the sequence
2000, 4000, 6000, 8000, 10000, 10000, … that never exceeds 10000 ms. -/
theorem reconnect_backoff (m : ConnMachine) (n : ℕ) (h : 1 ≤ n) :
    nthCloseDelay (wsOnOpen m) n = min 10000 (n * 2000) ∧
    nthCloseDelay (wsOnOpen m) n ≤ 10000 ∧
    (wsOnOpen m).reconnectAttempt = 0 ∧
    nthCloseDelay (wsOnOpen m) 1 = 2000 ∧ nthCloseDelay (wsOnOpen m) 2 = 4000 ∧
    nthCloseDelay (wsOnOpen m) 3 = 6000 ∧ nthCloseDelay (wsOnOpen m) 4 = 8000 ∧
    nthCloseDelay (wsOnOpen m) 5 = 10000 ∧ nthCloseDelay (wsOnOpen m) 6 = 10000 := by
  have hsnd : ∀ mm : ConnMachine,
      (wsOnClose mm).2 = min 10000 ((mm.reconnectAttempt + 1) * 2000) := fun _ => rfl
  have hgen : ∀ k : ℕ, 1 ≤ k → nthCloseDelay (wsOnOpen m) k = min 10000 (k * 2000) := by
    intro k hk
    show (wsOnClose (closesAfter (wsOnOpen m) (k - 1))).2 = min 10000 (k * 2000)
    rw [hsnd, closesAfter_attempt]
    have hk1 : k - 1 + 1 = k := by omega
    rw [hk1]
  refine ⟨hgen n h, by rw [hgen n h]; exact min_le_left _ _, rfl, ?_, ?_, ?_, ?_, ?_, ?_⟩ <;>
    rw [hgen _ (by omega)] <;> decide

/-- C4 witness: the backoff theorem applied at the concrete fifth close. -/
theorem reconnect_backoff_witness :
    1 ≤ 5 ∧ nthCloseDelay (wsOnOpen ⟨3⟩) 5 = min 10000 (5 * 2000) :=
  ⟨by decide, (reconnect_backoff ⟨3⟩ 5 (by decide)).1⟩

/-- C5: an undecodable transport message adds exactly one new warning alert
at the head of the alerts list and leaves currentCaption, partialCaption,
transcript, isProcessing and metrics unchanged; a decodable message the
normalizer rejects is discarded with no alert and no state change at all. -/
theorem malformed_and_unrecognized (now : String) (s : AggState) (v : JSValue)
    (h : normalizeIncomingEvent now v = none) :
    (onMessage now .undecodable s).alerts =
      (alertFromPayload s.nextId (malformedAlertPayload now) :: s.alerts).take 20 ∧
    (malformedAlertPayload now).level = .warning ∧
    (onMessage now .undecodable s).currentCaption = s.currentCaption ∧
    (onMessage now .undecodable s).partialCaption = s.partialCaption ∧
    (onMessage now .undecodable s).transcript = s.transcript ∧
    (onMessage now .undecodable s).isProcessing = s.isProcessing ∧
    (onMessage now .undecodable s).metrics = s.metrics ∧
    onMessage now (.decoded v) s = s := by
  refine ⟨rfl, rfl, rfl, rfl, rfl, rfl, rfl, ?_⟩
  simp [onMessage, h]

/-- C5 witness: the error-handling theorem applied at a concrete state with a
concrete rejected value (`null` is not an object, so the normalizer rejects
it). -/
theorem malformed_and_unrecognized_witness :
    normalizeIncomingEvent ("") JSValue.null = none ∧
    onMessage ("") (.decoded JSValue.null) initialState = initialState ∧
    (onMessage ("") .undecodable initialState).transcript = initialState.transcript :=
  ⟨rfl,
    (malformed_and_unrecognized ("") initialState JSValue.null rfl).2.2.2.2.2.2.2,
    (malformed_and_unrecognized ("") initialState JSValue.null rfl).2.2.2.2.1⟩

/-- C6 counterexample: on a payload whose landmark stage carries only the
direct flag `last_frame_had_hands: true`, the normalizer actually imported by
the application (`src/hooks/use-caption-stream.ts`) reports
`hands_detected = false`, although the claim requires the available direct
flag (true) to win; only the variant hook kept in `src/unnamed/part_000`
honours the flag. -/
theorem hands_flag_counterexample :
    handsOf (normalizeMetricsEvent handsFlagOnlyPayload) = some false ∧
    jsGet (landmarkStage handsFlagOnlyPayload) ("last_frame_had_hands") = JSValue.bool true ∧
    handsOf (normalizeMetricsEventAlt handsFlagOnlyPayload) = some true :=
  ⟨rfl, rfl, rfl⟩

/-- C6 (amended): for the active normalizer, `hands_detected` is true iff the
landmark stage reports itself healthy and a positive historical
`frames_with_hands` count; the direct `last_frame_had_hands` flag is never
consulted (two payloads agreeing on `healthy` and `frames_with_hands` yield
the same result). The flag-precedence derivation the claim describes holds
only of the variant normalizer in `src/unnamed/part_000`. -/
theorem hands_detected_corrected (p q : JSValue)
    (h1 : jsGet (landmarkStage p) ("healthy") = jsGet (landmarkStage q) ("healthy"))
    (h2 : jsGet (landmarkStage p) ("frames_with_hands") =
      jsGet (landmarkStage q) ("frames_with_hands")) :
    (handsOf (normalizeMetricsEvent p) = some true ↔
      toBool (jsGet (landmarkStage p) ("healthy")) false = true ∧
      0 < toNumber (jsGet (landmarkStage p) ("frames_with_hands")) 0) ∧
    handsOf (normalizeMetricsEvent p) = handsOf (normalizeMetricsEvent q) ∧
    (∀ b : Bool, jsGet (landmarkStage p) ("last_frame_had_hands") = JSValue.bool b →
      handsOf (normalizeMetricsEventAlt p) = some b) := by
  refine ⟨?_, ?_, ?_⟩
  · rw [handsOf_normalizeMetricsEvent]
    simp [Bool.and_eq_true, decide_eq_true_eq]
  · rw [handsOf_normalizeMetricsEvent, handsOf_normalizeMetricsEvent, h1, h2]
  · intro b hb
    rw [handsOf_normalizeMetricsEventAlt, hb]
    rfl

/-- C6 witness: two concrete payloads agreeing on `healthy` and
`frames_with_hands` but differing on the direct flag give the same
`hands_detected` under the active normalizer. -/
theorem hands_detected_corrected_witness :
    jsGet (landmarkStage handsMixedPayload) ("healthy") =
      jsGet (landmarkStage handsNoFlagPayload) ("healthy") ∧
    jsGet (landmarkStage handsMixedPayload) ("frames_with_hands") =
      jsGet (landmarkStage handsNoFlagPayload) ("frames_with_hands") ∧
    handsOf (normalizeMetricsEvent handsMixedPayload) =
      handsOf (normalizeMetricsEvent handsNoFlagPayload) :=
  ⟨rfl, rfl, (hands_detected_corrected handsMixedPayload handsNoFlagPayload rfl rfl).2.1⟩

/-- C7 counterexample: the payload `{severity: "ERROR"}` is normalized to
level `error` although its severity field is not exactly the string
`"error"`, because the source lowercases the severity before comparing. -/
theorem alert_level_case_counterexample :
    levelOf (normalizeAlertEvent ("T0") severityCasePayload) = some AlertLevel.error ∧
    jsGet severityCasePayload ("severity") = JSValue.str ("ERROR") ∧
    ("ERROR" : String) ≠ "error" :=
  ⟨rfl, rfl, by decide⟩

/-- C7 (amended): the output level is `error` exactly when the lowercased
severity string equals `"error"`, `warning` exactly when it equals
`"warning"`, and `info` otherwise; a missing or non-string severity defaults
to `"info"` and hence maps to `info`. -/
theorem alert_level_corrected (ts : String) (payload : JSValue) :
    (levelOf (normalizeAlertEvent ts payload) = some AlertLevel.error ↔
      jsToLower (toString (jsGet payload ("severity")) ("info")) = "error") ∧
    (levelOf (normalizeAlertEvent ts payload) = some AlertLevel.warning ↔
      jsToLower (toString (jsGet payload ("severity")) ("info")) = "warning") ∧
    (levelOf (normalizeAlertEvent ts payload) = some AlertLevel.info ↔
      (jsToLower (toString (jsGet payload ("severity")) ("info")) ≠ "error" ∧
        jsToLower (toString (jsGet payload ("severity")) ("info")) ≠ "warning")) := by
  rw [levelOf_normalizeAlertEvent]
  split_ifs with h1 h2 <;> simp_all

/-- C8: normalizing the Shape-B envelope
`{event:"system.alert", timestamp:"T0", payload:{severity:"ERROR",
component:"gemini", reason:"timeout"}}` yields a `system.alert` event with
level `error`, message `"gemini: timeout"` and timestamp `"T0"`, whatever the
normalizer's wall-clock reading is. -/
theorem alert_envelope_normalization (now : String) :
    normalizeIncomingEvent now alertEnvelopeExample =
      some (StreamEvent.systemAlert
        { level := .error, message := "gemini: timeout", timestamp := "T0" }) := rfl

/-- C9: pausing an active session leaves transcript, alerts and
currentCaption unchanged, clears partialCaption, stops processing, and sets
the connection state to disconnected. -/
theorem pause_preserves_history (s : AggState) (h : s.sessionActive = true) :
    (pauseSession s).transcript = s.transcript ∧
    (pauseSession s).alerts = s.alerts ∧
    (pauseSession s).currentCaption = s.currentCaption ∧
    (pauseSession s).partialCaption = none ∧
    (pauseSession s).isProcessing = false ∧
    (pauseSession s).connectionState = ConnectionState.disconnected :=
  ⟨rfl, rfl, rfl, rfl, rfl, rfl⟩

/-- C9 witness: the pause theorem applied at a concrete active state with a
non-empty transcript. -/
theorem pause_preserves_history_witness :
    pausedWitnessState.sessionActive = true ∧
    (pauseSession pausedWitnessState).transcript = pausedWitnessState.transcript ∧
    (pauseSession pausedWitnessState).alerts = pausedWitnessState.alerts :=
  ⟨rfl, (pause_preserves_history pausedWitnessState rfl).1,
    (pause_preserves_history pausedWitnessState rfl).2.1⟩

/-- C10: for a Shape-A envelope naming a caption event, the normalized
caption timestamp is the payload's `created_at` field when that is a string
and the normalizer's wall-clock time otherwise; no `timestamp` field of the
payload or the envelope enters the result. -/
theorem shapeA_caption_timestamp (now t : String) (raw payload : JSValue)
    (hobj : isObject raw = true)
    (htype : jsGet raw ("type") = JSValue.str t)
    (hkind : t = "caption.partial" ∨ t = "caption.final")
    (hpay : jsGet raw ("payload") = payload)
    (hpobj : isObject payload = true) :
    ∃ pay : CaptionPayload,
      Option.bind (normalizeIncomingEvent now raw) captionPayloadOf = some pay ∧
      pay.timestamp = toString (jsGet payload ("created_at")) now ∧
      (∀ s : String, jsGet payload ("created_at") = JSValue.str s → pay.timestamp = s) ∧
      ((∀ s : String, jsGet payload ("created_at") ≠ JSValue.str s) → pay.timestamp = now) := by
  have hnorm := normalizeIncomingEvent_shapeA now raw payload t hobj htype hpay hpobj
  rcases hkind with hk | hk <;> subst hk <;> simp only [reduceIte] at hnorm <;>
    refine ⟨_, by rw [hnorm]; rfl, rfl, fun s hs => by rw [hs]; rfl, fun hne => ?_⟩ <;>
    · cases hca : jsGet payload ("created_at") <;> simp [toString] <;>
        exact absurd hca (hne _)

/-- C10 witness: a concrete Shape-A `caption.final` envelope whose payload
carries `created_at: "CREATED"` together with competing `timestamp` fields on
both payload and envelope normalizes to the timestamp `"CREATED"`. -/
theorem shapeA_caption_timestamp_witness :
    isObject shapeAExample = true ∧
    jsGet shapeAExample ("type") = JSValue.str ("caption.final") ∧
    jsGet shapeAExample ("payload") = shapeAPayload ∧
    isObject shapeAPayload = true ∧
    (∃ pay : CaptionPayload,
      Option.bind (normalizeIncomingEvent ("WALL") shapeAExample) captionPayloadOf = some pay ∧
      pay.timestamp = toString (jsGet shapeAPayload ("created_at")) ("WALL") ∧
      (∀ s : String, jsGet shapeAPayload ("created_at") = JSValue.str s → pay.timestamp = s) ∧
      ((∀ s : String, jsGet shapeAPayload ("created_at") ≠ JSValue.str s) →
        pay.timestamp = ("WALL"))) ∧
    Option.map (fun p => p.timestamp)
        (Option.bind (normalizeIncomingEvent ("WALL") shapeAExample) captionPayloadOf) =
      some ("CREATED") :=
  ⟨rfl, rfl, rfl, rfl,
    shapeA_caption_timestamp ("WALL") ("caption.final") shapeAExample shapeAPayload rfl rfl
      (Or.inr rfl) rfl rfl,
    rfl⟩

end CaptionStream
